import Mathlib

/-!
A shallow embedding of the core of the clawcontrol-openclaw plugin:
the `ClawControlConnection` WebSocket session (reconnect policy,
request/response correlation, outbound send guard) and the `FileSync`
file synchronizer (directory scan, watcher with debounce and echo
suppression, server-push reconciliation).

JavaScript `Map` objects are embedded as association lists keyed by
`String`; `Date.now()` timestamps and `setTimeout` deadlines are `Nat`
milliseconds on a virtual clock.  Single-threaded event-loop execution
is embedded as explicit state passing: each socket/watcher callback and
each timer firing is a function from state to state.
-/

namespace ClawControl

/-- Association-list lookup, embedding `Map.get`. -/
def lookupA {β : Type} : List (String × β) → String → Option β
  | [], _ => none
  | (k, v) :: rest, key => if k = key then some v else lookupA rest key

/-- Association-list removal of every binding of a key, embedding `Map.delete`
(on states reachable from a JS `Map` a key is bound at most once). -/
def eraseA {β : Type} (m : List (String × β)) (key : String) : List (String × β) :=
  m.filter (fun kv => kv.1 ≠ key)

/-- Association-list update, embedding `Map.set`. -/
def setA {β : Type} (m : List (String × β)) (key : String) (v : β) : List (String × β) :=
  (key, v) :: eraseA m key

theorem lookupA_setA_self {β : Type} (m : List (String × β)) (k : String) (v : β) :
    lookupA (setA m k v) k = some v := by
  simp [setA, lookupA]

theorem lookupA_eraseA_self {β : Type} (m : List (String × β)) (k : String) :
    lookupA (eraseA m k) k = none := by
  induction m with
  | nil => rfl
  | cons kv rest ih =>
    by_cases h : kv.1 = k
    · simpa [eraseA, h] using ih
    · simpa [eraseA, lookupA, h] using ih

theorem lookupA_setA_ne {β : Type} (m : List (String × β)) (k k' : String) (v : β)
    (h : k ≠ k') : lookupA (setA m k v) k' = lookupA (eraseA m k) k' := by
  simp [setA, lookupA, h]

/-! ### JS string primitives

The JS string methods the source uses, embedded over the character
list of a Lean `String`. -/

/-- `s.startsWith(pre)`. -/
def strStartsWith (s pre : String) : Bool :=
  pre.data.isPrefixOf s.data

/-- `s.endsWith(suf)`. -/
def strEndsWith (s suf : String) : Bool :=
  suf.data.isSuffixOf s.data

/-- `filename.replace(/\\/g, "/")`: every backslash becomes a slash. -/
def backslashToSlash (s : String) : String :=
  ⟨s.data.map (fun c => if c = '\\' then '/' else c)⟩

/-- Split a character list at every slash. -/
def splitSlash : List Char → List (List Char)
  | [] => [[]]
  | c :: rest =>
    match splitSlash rest with
    | [] => [[]]
    | h :: t => if c = '/' then [] :: h :: t else (c :: h) :: t

/-- Join character-list segments with slashes. -/
def joinSlash : List (List Char) → List Char
  | [] => []
  | [x] => x
  | x :: xs => x ++ '/' :: joinSlash xs

/-! ## ClawControlConnection (`ClawControlConnection` class)

State of one connection session.  `ws` is the `ws` field: `none` embeds
`this.ws === null`, `some rs` a socket object whose `readyState` is `rs`.
`reconnectTimer` holds the virtual firing time of a scheduled reconnect.
Promise settlement of `sendRequest` calls is recorded in the `outcomes`
log; transmitted frames are appended to `sent`; `console.warn` output to
`log`. -/

inductive ReadyState
  | CONNECTING | OPEN | CLOSING | CLOSED
  deriving DecidableEq

/-- One outbound JSON frame `{type, requestId?, ...params}`. -/
structure Frame where
  type : String
  requestId : Option String := none
  params : List (String × String) := []
  deriving DecidableEq

/-- Settlement of a `sendRequest` promise: resolution with the matching
response, or rejection with an `Error` message. -/
inductive ReqOutcome
  | resolved (requestId : String)
  | rejected (msg : String)
  deriving DecidableEq

structure ConnState where
  ws : Option ReadyState
  reconnectTimer : Option Nat
  connected : Bool
  requestCounter : Nat
  /-- `_pendingRequests`: requestId ↦ virtual firing time of its timeout timer. -/
  pending : List (String × Nat)
  sent : List Frame
  outcomes : List ReqOutcome
  log : List String
  deriving DecidableEq

/-- The `close` event handler registered in `connect()`: clear the connected
flag; code 4000 means superseded, return without reconnecting; any other
code schedules a reconnect. -/
def onClose (st : ConnState) (now : Nat) (code : Nat) : ConnState :=
  let st := { st with connected := false }
  if code = 4000 then st
  else { st with reconnectTimer := some (now + 3000) }

/-- `disconnect()`: cancel a scheduled reconnect, close and drop the socket,
clear the connected flag. -/
def disconnect (st : ConnState) : ConnState :=
  { st with reconnectTimer := none, ws := none, connected := false }

/-- `send(msg)`: transmit only when a socket exists and its readyState is
OPEN; otherwise warn and drop.  Total: no exception path. -/
def send (st : ConnState) (f : Frame) : ConnState :=
  match st.ws with
  | some .OPEN => { st with sent := st.sent ++ [f] }
  | _ => { st with log := st.log ++ ["[clawcontrol] Cannot send - not connected"] }

/-- The correlation id `req-${Date.now()}-${++this._requestCounter}`. -/
def mkRequestId (now counter : Nat) : String :=
  "req-" ++ toString now ++ "-" ++ toString counter

/-- `sendRequest(type, params?, timeoutMs = 10000)`: when not connected,
reject immediately with "Not connected" (no counter bump, no pending
entry, no frame); otherwise allocate a correlation id, arm the timeout
timer, record the pending entry and transmit the request frame. -/
def sendRequest (st : ConnState) (type : String) (params : List (String × String))
    (now : Nat) (timeoutMs : Nat := 10000) : ConnState :=
  match st.ws with
  | some .OPEN =>
    let counter := st.requestCounter + 1
    let rid := mkRequestId now counter
    { st with
      requestCounter := counter
      pending := setA st.pending rid (now + timeoutMs)
      sent := st.sent ++ [{ type := type, requestId := some rid, params := params }] }
  | _ => { st with outcomes := st.outcomes ++ [.rejected "Not connected"] }

/-- The timeout timer armed by `sendRequest`, firing: delete the pending
entry and reject with the timeout message. -/
def fireRequestTimeout (st : ConnState) (rid : String) (type : String)
    (timeoutMs : Nat) : ConnState :=
  { st with
    pending := eraseA st.pending rid
    outcomes := st.outcomes ++
      [.rejected ("Request " ++ type ++ " timed out after " ++ toString timeoutMs ++ "ms")] }

/-- The `message` handler branch for `{type:"response", requestId}` frames:
a known requestId clears its timer, deletes the pending entry and resolves
the promise; an unknown requestId is silently dropped. -/
def onResponse (st : ConnState) (rid : String) : ConnState :=
  match lookupA st.pending rid with
  | some _ =>
    { st with pending := eraseA st.pending rid, outcomes := st.outcomes ++ [.resolved rid] }
  | none => st

/-! ## FileSync: server-push reconciliation as an effect trace

`handleServerPush` and `handleSnapshotAck` interleave suppression-map
updates with filesystem mutations.  To reason about the *order* of those
effects they are embedded as functions producing the list of effects in
program order, together with the error (if any) that propagates to the
caller.  Paths are kept relative to `notesPath` (the `path.join` with the
root is a fixed prefix on every absolute path and is dropped). -/

inductive SyncAction
  | upsert | delete | rename
  deriving DecidableEq

/-- A `file_sync_push` message from the server. -/
structure FileSyncPush where
  action : SyncAction
  path : String
  content : Option String := none
  oldPath : Option String := none
  version : Nat := 0
  deriving DecidableEq

/-- One entry of a `file_snapshot_ack` message. -/
structure SnapUpdate where
  path : String
  content : String
  version : Nat := 0
  action : SyncAction
  deriving DecidableEq

/-- `path.dirname` for relative POSIX paths. -/
def dirname (p : String) : String :=
  let parts := splitSlash p.data
  if parts.length ≤ 1 then "." else ⟨joinSlash parts.dropLast⟩

/-- Result of the one fallible filesystem call in a `handleServerPush`
branch (`writeFile`, `unlink` or `rename`): success, or failure with an
errno code such as "ENOENT". -/
inductive FsRes
  | ok
  | fail (code : String)
  deriving DecidableEq

/-- Observable effects of the reconciliation handlers, in program order. -/
inductive Eff
  | ensureDirE (dir : String)
  | suppressE (p : String)
  | writeE (p c : String)
  | unlinkE (p : String)
  | renameE (o n : String)
  | logE (m : String)
  deriving DecidableEq

/-- `handleServerPush(msg)` as its effect trace plus the error (if any)
that propagates.  `res` is the outcome of the branch's filesystem call:
`upsert` has no catch, so any failure of `writeFile` propagates; `delete`
and `rename` catch and swallow exactly `ENOENT` and rethrow everything
else.  On `upsert` without content and `rename` without `oldPath` the
handler returns at once. -/
def handleServerPushT (msg : FileSyncPush) (res : FsRes) : List Eff × Option String :=
  match msg.action with
  | .upsert =>
    match msg.content with
    | none => ([], none)
    | some c =>
      ([.ensureDirE (dirname msg.path), .suppressE msg.path, .writeE msg.path c] ++
        (match res with
          | .ok => [.logE ("[sync] wrote: " ++ msg.path)]
          | .fail _ => []),
        match res with
        | .ok => none
        | .fail code => some code)
  | .delete =>
    ([.suppressE msg.path, .unlinkE msg.path] ++
      (match res with
        | .ok => [.logE ("[sync] deleted: " ++ msg.path)]
        | .fail _ => []),
      match res with
      | .ok => none
      | .fail code => if code = "ENOENT" then none else some code)
  | .rename =>
    match msg.oldPath with
    | none => ([], none)
    | some o =>
      ([.ensureDirE (dirname msg.path), .suppressE o, .suppressE msg.path,
          .renameE o msg.path] ++
        (match res with
          | .ok => [.logE ("[sync] renamed: " ++ o ++ " -> " ++ msg.path)]
          | .fail _ => []),
        match res with
        | .ok => none
        | .fail code => if code = "ENOENT" then none else some code)

/-- `handleSnapshotAck(msg)` as its effect trace (writes assumed to
succeed; a failing write would cut the trace short at that write, which
only shortens the trace).  Only `upsert` updates are applied. -/
def handleSnapshotAckT : List SnapUpdate → List Eff
  | [] => []
  | u :: rest =>
    match u.action with
    | .upsert =>
      [.ensureDirE (dirname u.path), .suppressE u.path, .writeE u.path u.content,
        .logE ("[sync] wrote server-only file: " ++ u.path)] ++ handleSnapshotAckT rest
    | _ => handleSnapshotAckT rest

/-- The paths a single effect mutates on the filesystem. -/
def mutPaths : Eff → List String
  | .writeE p _ => [p]
  | .unlinkE p => [p]
  | .renameE o n => [o, n]
  | _ => []

/-- Every filesystem mutation in the trace touches only paths for which a
suppression entry was recorded earlier in the trace (or was in `acc`
already). -/
def suppressedFirst (acc : List String) : List Eff → Bool
  | [] => true
  | e :: es =>
    (mutPaths e).all (fun p => acc.contains p) &&
      suppressedFirst (match e with | .suppressE p => p :: acc | _ => acc) es

/-- Whether an effect is a log line. -/
def isLogE : Eff → Bool
  | .logE _ => true
  | _ => false

/-! ## FileSync: watcher, debounce and echo suppression

The watcher pipeline is embedded as a discrete-event simulation on a
virtual millisecond clock.  `WState` carries the `suppressedPaths` map
(path ↦ `Date.now()` at suppression), the `debounceTimers` map (path ↦
virtual firing time of the pending `setTimeout`), the filesystem visible
to `handleLocalChange` (relative path ↦ content of an existing file) and
the outbound frames handed to `send`, oldest first. -/

def SUPPRESSION_WINDOW : Nat := 1000

def DEBOUNCE_DELAY : Nat := 300

/-- An outbound `file_sync` message. -/
structure FileMsg where
  action : SyncAction
  path : String
  content : Option String := none
  deriving DecidableEq

structure WState where
  suppressed : List (String × Nat)
  timers : List (String × Nat)
  fs : List (String × String)
  sentMsgs : List FileMsg
  deriving DecidableEq

def WState.init : WState := ⟨[], [], [], []⟩

/-- `suppress(relPath)`: record `Date.now()` for the path. -/
def suppress (sup : List (String × Nat)) (relPath : String) (now : Nat) :
    List (String × Nat) :=
  setA sup relPath now

/-- `isSuppressed(relPath)`: an entry younger than the suppression window
answers true and is kept; an older entry is pruned and answers false; no
entry answers false.  Returns the answer and the updated map. -/
def isSuppressedFn (sup : List (String × Nat)) (relPath : String) (now : Nat) :
    Bool × List (String × Nat) :=
  match lookupA sup relPath with
  | none => (false, sup)
  | some suppressedAt =>
    if now - suppressedAt < SUPPRESSION_WINDOW then (true, sup)
    else (false, eraseA sup relPath)

/-- `handleLocalChange(relPath)`: read the filesystem; an existing file
produces an upsert frame with its content, a missing one a delete frame.
(The unused `Nat` argument is the virtual time of the call.) -/
def handleLocalChange (st : WState) (relPath : String) (_now : Nat) : WState :=
  match lookupA st.fs relPath with
  | some content =>
    { st with sentMsgs := st.sentMsgs ++ [⟨.upsert, relPath, some content⟩] }
  | none => { st with sentMsgs := st.sentMsgs ++ [⟨.delete, relPath, none⟩] }

/-- The `fs.watch` callback: drop a missing, dot-led or non-`.md`
filename; normalize backslashes; drop a suppressed path (arrival-time
check); otherwise cancel any pending debounce task for the path and
schedule a fresh one at `now + DEBOUNCE_DELAY`. -/
def watcherEvent (st : WState) (now : Nat) (filename : Option String) : WState :=
  match filename with
  | none => st
  | some fn =>
    if strStartsWith fn "." then st
    else if !(strEndsWith fn ".md") then st
    else
      let relPath := backslashToSlash fn
      let res := isSuppressedFn st.suppressed relPath now
      let st := { st with suppressed := res.2 }
      if res.1 then st
      else { st with timers := setA st.timers relPath (now + DEBOUNCE_DELAY) }

/-- The spec's wording of the watcher callback, for comparison: no
suppression check on arrival, only filtering and debouncing. -/
def watcherEventSpec (st : WState) (now : Nat) (filename : Option String) : WState :=
  match filename with
  | none => st
  | some fn =>
    if strStartsWith fn "." then st
    else if !(strEndsWith fn ".md") then st
    else
      let relPath := backslashToSlash fn
      { st with timers := setA st.timers relPath (now + DEBOUNCE_DELAY) }

/-- The spec's wording of the debounce evaluation, for comparison: the
suppression entry is consulted when the window elapses; an active entry
discards the event and is left to expire, otherwise the filesystem is
read as in `handleLocalChange`. -/
def handleLocalChangeSpec (st : WState) (relPath : String) (now : Nat) : WState :=
  let res := isSuppressedFn st.suppressed relPath now
  let st := { st with suppressed := res.2 }
  if res.1 then st else handleLocalChange st relPath now

/-- The pending debounce task (if any) with the earliest firing time not
after `t`; ties go to the earlier list position. -/
def earliestDue (timers : List (String × Nat)) (t : Nat) : Option (String × Nat) :=
  timers.foldl
    (fun best kv =>
      if kv.2 ≤ t then
        match best with
        | none => some kv
        | some b => if kv.2 < b.2 then some kv else best
      else best)
    none

/-- Fire, in deadline order, every pending debounce task due by time `t`:
each firing removes its timer entry and runs the evaluation `lc` at the
timer's firing time.  `fuel` bounds the number of firings (each firing
removes one timer and schedules none). -/
def fireDueWith (lc : WState → String → Nat → WState) :
    Nat → WState → Nat → WState
  | 0, st, _ => st
  | fuel + 1, st, t =>
    match earliestDue st.timers t with
    | none => st
    | some (p, ft) =>
      let st' := { st with timers := eraseA st.timers p }
      fireDueWith lc fuel (lc st' p ft) t

/-- External stimuli fed to the simulation. -/
inductive SimEv
  /-- `fs.watch` reports `filename` (a relative path). -/
  | watch (filename : String)
  /-- `handleServerPush({action:"upsert"})`: suppress the path, then write
  the file. -/
  | pushUp (p c : String)
  /-- An independent local edit: the file's content changes on disk (the
  matching watch event is fed separately, as the real watcher delivers it). -/
  | localWrite (p c : String)
  deriving DecidableEq

def applySimEv (watchFn : WState → Nat → Option String → WState)
    (st : WState) (now : Nat) : SimEv → WState
  | .watch fn => watchFn st now (some fn)
  | .pushUp p c =>
    { st with suppressed := suppress st.suppressed p now, fs := setA st.fs p c }
  | .localWrite p c => { st with fs := setA st.fs p c }

/-- Run one timestamped stimulus: first fire every debounce task due by
its time, then apply it. -/
def stepEvWith (watchFn : WState → Nat → Option String → WState)
    (lc : WState → String → Nat → WState) (st : WState) (ev : Nat × SimEv) : WState :=
  let st := fireDueWith lc st.timers.length st ev.1
  applySimEv watchFn st ev.1 ev.2

/-- Run a time-sorted list of stimuli from the initial state, then let
every remaining debounce task fire by the horizon `endT`. -/
def runSimWith (watchFn : WState → Nat → Option String → WState)
    (lc : WState → String → Nat → WState) (evs : List (Nat × SimEv)) (endT : Nat) :
    WState :=
  let st := evs.foldl (stepEvWith watchFn lc) WState.init
  fireDueWith lc st.timers.length st endT

/-- The source pipeline: suppression checked when the event arrives. -/
def runSim : List (Nat × SimEv) → Nat → WState :=
  runSimWith watcherEvent handleLocalChange

/-- The spec-worded pipeline: suppression checked when the debounce
window elapses. -/
def runSimSpec : List (Nat × SimEv) → Nat → WState :=
  runSimWith watcherEventSpec handleLocalChangeSpec

/-! ## FileSync: directory scan (`walkDir` / `scanDirectory`)

A directory listing is embedded as a list of entries; a file whose
content is `none` is unreadable (`readFile` rejects). -/

inductive FsEntry
  | file (name : String) (content : Option String)
  | dir (name : String) (entries : List FsEntry)

def FsEntry.name : FsEntry → String
  | .file n _ => n
  | .dir n _ => n

/-- `prefix ? `${prefix}/${entry.name}` : entry.name`. -/
def relJoin (pre n : String) : String :=
  if pre = "" then n else pre ++ "/" ++ n

mutual

/-- One iteration of `walkDir`'s loop: skip dot-led names, recurse into
directories, collect a readable `.md` file, skip everything else. -/
def walkEntry (pre : String) : FsEntry → List (String × String)
  | .file n c =>
    if strStartsWith n "." then []
    else if strEndsWith n ".md" then
      match c with
      | some content => [(relJoin pre n, content)]
      | none => []
    else []
  | .dir n sub =>
    if strStartsWith n "." then []
    else walkDirM (relJoin pre n) sub

/-- `walkDir(dir, prefix, files)`: the collected `(path, content)` pairs
in traversal order. -/
def walkDirM (pre : String) : List FsEntry → List (String × String)
  | [] => []
  | e :: rest => walkEntry pre e ++ walkDirM pre rest

end

/-- `scanDirectory()`: walk the root listing with an empty prefix. -/
def scanDirectory (root : List FsEntry) : List (String × String) :=
  walkDirM "" root

/-! ## Theorems -/

/-- C2: a close event with the reserved superseded code 4000 schedules no
reconnect and leaves the session retired (the reconnect timer is exactly
what it was); a close event with any other code schedules exactly one
reconnect attempt, firing after the fixed 3000 ms delay.  Either way the
connected flag is cleared. -/
theorem close_superseded_retires_else_reconnects (st : ConnState) (now code : Nat) :
    (onClose st now code).reconnectTimer =
      (if code = 4000 then st.reconnectTimer else some (now + 3000)) ∧
    (onClose st now code).connected = false := by
  unfold onClose
  by_cases h : code = 4000 <;> simp [h]

/-- C3, counterexample: after `disconnect()` (which does cancel the
scheduled reconnect), the close event that the intentional `ws.close()`
triggers still runs the close handler, and with a normal close code 1000
that handler schedules a reconnect 3000 ms later.  So a reconnect *is*
scheduled after an intentional disconnect. -/
theorem disconnect_then_close_schedules_reconnect :
    (disconnect ⟨some .OPEN, some 500, true, 0, [], [], [], []⟩).reconnectTimer = none ∧
    (onClose (disconnect ⟨some .OPEN, some 500, true, 0, [], [], [], []⟩) 10 1000).reconnectTimer
      = some 3010 := by
  decide

/-- C3, amended: `disconnect()` cancels any already-scheduled reconnect,
closes and drops the transport, clears the connected flag, and is
idempotent; but the close event that follows the intentional close is
handled like any other non-superseded close, so it schedules a new
reconnect after 3000 ms. -/
theorem disconnect_cancels_but_close_still_reconnects (st : ConnState) :
    (disconnect st).reconnectTimer = none ∧
    (disconnect st).ws = none ∧
    (disconnect st).connected = false ∧
    disconnect (disconnect st) = disconnect st ∧
    (∀ now code, code ≠ 4000 →
      (onClose (disconnect st) now code).reconnectTimer = some (now + 3000)) := by
  refine ⟨rfl, rfl, rfl, rfl, ?_⟩
  intro now code hc
  simp [onClose, hc]

/-- Witness for the amended C3 at a concrete input. -/
theorem disconnect_cancels_but_close_still_reconnects_witness :
    (onClose (disconnect ⟨some .OPEN, some 500, true, 0, [], [], [], []⟩) 10 1000).reconnectTimer
      = some 3010 :=
  (disconnect_cancels_but_close_still_reconnects
    ⟨some .OPEN, some 500, true, 0, [], [], [], []⟩).2.2.2.2 10 1000 (by decide)

/-- C4: while connected, `sendRequest` records a pending entry under the
fresh correlation id and transmits the request frame; a response frame
with the matching requestId resolves the promise and removes the pending
entry; the timeout firing rejects the promise with the timeout message
and removes the pending entry; and a response frame whose requestId
matches no pending entry leaves the state untouched. -/
theorem sendRequest_lifecycle (st : ConnState) (ty : String)
    (params : List (String × String)) (now tmo : Nat) (h : st.ws = some .OPEN) :
    lookupA (sendRequest st ty params now tmo).pending (mkRequestId now (st.requestCounter + 1))
      = some (now + tmo) ∧
    (sendRequest st ty params now tmo).sent = st.sent ++
      [{ type := ty, requestId := some (mkRequestId now (st.requestCounter + 1)),
         params := params }] ∧
    (onResponse (sendRequest st ty params now tmo)
        (mkRequestId now (st.requestCounter + 1))).outcomes =
      (sendRequest st ty params now tmo).outcomes ++
        [.resolved (mkRequestId now (st.requestCounter + 1))] ∧
    lookupA (onResponse (sendRequest st ty params now tmo)
        (mkRequestId now (st.requestCounter + 1))).pending
      (mkRequestId now (st.requestCounter + 1)) = none ∧
    (fireRequestTimeout (sendRequest st ty params now tmo)
        (mkRequestId now (st.requestCounter + 1)) ty tmo).outcomes =
      (sendRequest st ty params now tmo).outcomes ++
        [.rejected ("Request " ++ ty ++ " timed out after " ++ toString tmo ++ "ms")] ∧
    lookupA (fireRequestTimeout (sendRequest st ty params now tmo)
        (mkRequestId now (st.requestCounter + 1)) ty tmo).pending
      (mkRequestId now (st.requestCounter + 1)) = none ∧
    (∀ r, lookupA (sendRequest st ty params now tmo).pending r = none →
      onResponse (sendRequest st ty params now tmo) r = sendRequest st ty params now tmo) := by
  have hsend : sendRequest st ty params now tmo =
      { st with
        requestCounter := st.requestCounter + 1
        pending := setA st.pending (mkRequestId now (st.requestCounter + 1)) (now + tmo)
        sent := st.sent ++
          [{ type := ty, requestId := some (mkRequestId now (st.requestCounter + 1)),
             params := params }] } := by
    unfold sendRequest
    rw [h]
  refine ⟨?_, ?_, ?_, ?_, ?_, ?_, ?_⟩
  · rw [hsend]; exact lookupA_setA_self _ _ _
  · rw [hsend]
  · unfold onResponse
    rw [hsend]
    simp [lookupA_setA_self]
  · unfold onResponse
    rw [hsend]
    simp [lookupA_setA_self, lookupA_eraseA_self]
  · rfl
  · unfold fireRequestTimeout
    simp [lookupA_eraseA_self]
  · intro r hr
    unfold onResponse
    rw [hr]

/-- Witness for C4 at a concrete input. -/
theorem sendRequest_lifecycle_witness :
    lookupA (sendRequest ⟨some .OPEN, none, true, 0, [], [], [], []⟩
        "thread_list_request" [] 7 10000).pending (mkRequestId 7 1) = some 10007 :=
  (sendRequest_lifecycle ⟨some .OPEN, none, true, 0, [], [], [], []⟩
    "thread_list_request" [] 7 10000 rfl).1

/-- C8: `send` in any state whose socket is missing or not OPEN changes
nothing but the warning log: no outbound frame is transmitted and (being
a total function of the state) nothing is thrown. -/
theorem send_while_not_open_is_logged_noop (st : ConnState) (f : Frame)
    (h : st.ws ≠ some .OPEN) :
    send st f = { st with log := st.log ++ ["[clawcontrol] Cannot send - not connected"] } := by
  cases hws : st.ws with
  | none => simp [send, hws]
  | some rs => cases rs <;> simp_all [send]

/-- Witness for C8 at a concrete input. -/
theorem send_while_not_open_is_logged_noop_witness :
    send ⟨none, none, false, 0, [], [], [], []⟩ { type := "pulse" } =
      { ws := none, reconnectTimer := none, connected := false, requestCounter := 0,
        pending := [], sent := [], outcomes := [],
        log := ["[clawcontrol] Cannot send - not connected"] } :=
  send_while_not_open_is_logged_noop ⟨none, none, false, 0, [], [], [], []⟩
    { type := "pulse" } (by simp)

/-- C10: `sendRequest` in any state whose socket is missing or not OPEN
rejects immediately with "Not connected" and changes nothing else: no
frame is transmitted, no pending entry is created, no timer is armed and
the request counter is untouched. -/
theorem sendRequest_not_connected_rejects (st : ConnState) (ty : String)
    (params : List (String × String)) (now tmo : Nat) (h : st.ws ≠ some .OPEN) :
    sendRequest st ty params now tmo =
      { st with outcomes := st.outcomes ++ [.rejected "Not connected"] } := by
  cases hws : st.ws with
  | none => simp [sendRequest, hws]
  | some rs => cases rs <;> simp_all [sendRequest]

/-- Helper: on a listing reachable from a JS `Map` (keys pairwise
distinct), `setA` keeps the keys pairwise distinct. -/
theorem keys_nodup_setA {β : Type} (m : List (String × β)) (k : String) (v : β)
    (h : (m.map Prod.fst).Nodup) : ((setA m k v).map Prod.fst).Nodup := by
  unfold setA eraseA
  refine List.nodup_cons.mpr ⟨?_, ?_⟩
  · intro hmem
    simp only [List.mem_map] at hmem
    obtain ⟨kv, hkv, hfst⟩ := hmem
    rw [List.mem_filter] at hkv
    have : kv.1 ≠ k := by simpa using hkv.2
    exact this hfst
  · exact ((List.filter_sublist m).map Prod.fst).nodup h

/-- Helper: an in-window `isSuppressed` lookup leaves the suppression map
unchanged (the entry is left to expire). -/
theorem isSuppressedFn_true_keeps_entry (sup : List (String × Nat)) (p : String) (now : Nat) :
    (isSuppressedFn sup p now).1 = true → (isSuppressedFn sup p now).2 = sup := by
  unfold isSuppressedFn
  cases lookupA sup p with
  | none => intro h; simp at h
  | some t0 =>
    intro h
    by_cases hw : now - t0 < SUPPRESSION_WINDOW
    · simp [hw]
    · simp [hw] at h

/-- Helper for C5 over `handleSnapshotAck` traces, generalized over the
set of already-suppressed paths. -/
theorem suppressedFirst_snapshotAck (ups : List SnapUpdate) (acc : List String) :
    suppressedFirst acc (handleSnapshotAckT ups) = true := by
  induction ups generalizing acc with
  | nil => rfl
  | cons u rest ih =>
    cases hu : u.action with
    | upsert => simp [handleSnapshotAckT, hu, suppressedFirst, mutPaths, ih]
    | delete => simp [handleSnapshotAckT, hu, ih]
    | rename => simp [handleSnapshotAckT, hu, ih]

/-- C5: in every `handleServerPush` branch (upsert, delete, rename, for
every message and every filesystem outcome) and in every
`handleSnapshotAck` batch, each filesystem mutation in the effect trace
is preceded by the suppression of every path it touches. -/
theorem remote_apply_suppresses_before_mutating (msg : FileSyncPush) (res : FsRes)
    (ups : List SnapUpdate) :
    suppressedFirst [] (handleServerPushT msg res).1 = true ∧
    suppressedFirst [] (handleSnapshotAckT ups) = true := by
  refine ⟨?_, suppressedFirst_snapshotAck ups []⟩
  cases hm : msg.action with
  | upsert =>
    cases hc : msg.content with
    | none => simp [handleServerPushT, hm, hc, suppressedFirst]
    | some c => cases res <;>
        simp [handleServerPushT, hm, hc, suppressedFirst, mutPaths]
  | delete => cases res <;> simp [handleServerPushT, hm, suppressedFirst, mutPaths]
  | rename =>
    cases ho : msg.oldPath with
    | none => simp [handleServerPushT, hm, ho, suppressedFirst]
    | some o => cases res <;>
        simp [handleServerPushT, hm, ho, suppressedFirst, mutPaths]

/-- C9, counterexample: a rename push whose source is missing on disk
(the `rename` call fails with ENOENT) produces no log line at all — the
missing-source condition is swallowed silently, not logged. -/
theorem rename_missing_source_logs_nothing :
    ((handleServerPushT ⟨.rename, "y.md", none, some "x.md", 1⟩ (.fail "ENOENT")).1.any isLogE)
      = false := by
  decide

/-- C9, amended: a rename push whose source is missing completes without
raising, having suppressed both the old and the new path, but logs
nothing about the missing source; a rename failure with any code other
than ENOENT propagates to the caller. -/
theorem rename_missing_source_tolerated_silently (o p : String) (v : Nat) (code : String)
    (hc : code ≠ "ENOENT") :
    (handleServerPushT ⟨.rename, p, none, some o, v⟩ (.fail "ENOENT")).2 = none ∧
    Eff.suppressE o ∈ (handleServerPushT ⟨.rename, p, none, some o, v⟩ (.fail "ENOENT")).1 ∧
    Eff.suppressE p ∈ (handleServerPushT ⟨.rename, p, none, some o, v⟩ (.fail "ENOENT")).1 ∧
    ((handleServerPushT ⟨.rename, p, none, some o, v⟩ (.fail "ENOENT")).1.any isLogE)
      = false ∧
    (handleServerPushT ⟨.rename, p, none, some o, v⟩ (.fail code)).2 = some code := by
  refine ⟨?_, ?_, ?_, ?_, ?_⟩ <;> simp [handleServerPushT, isLogE, hc]

/-- Witness for the amended C9 at a concrete input. -/
theorem rename_missing_source_tolerated_silently_witness :
    (handleServerPushT ⟨.rename, "y.md", none, some "x.md", 1⟩ (.fail "EACCES")).2
      = some "EACCES" :=
  (rename_missing_source_tolerated_silently "x.md" "y.md" 1 "EACCES" (by decide)).2.2.2.2

/-- C7: the scan of `notes/{a.md, .hidden/b.md, c.txt, sub/d.md}` yields
exactly `a.md` and `sub/d.md` with forward-slash-joined relative paths,
skipping the dot-directory and the non-document extension while recursing
into the non-dot subdirectory; and an unreadable file is skipped without
aborting the scan. -/
theorem scan_collects_only_visible_md_files :
    scanDirectory
        [.file "a.md" (some "A"), .dir ".hidden" [.file "b.md" (some "B")],
          .file "c.txt" (some "C"), .dir "sub" [.file "d.md" (some "D")]]
      = [("a.md", "A"), ("sub/d.md", "D")] ∧
    scanDirectory [.file "u.md" none, .file "a.md" (some "A")] = [("a.md", "A")] := by
  decide

/-- C1, counterexample: the suppression check runs when the watch event
*arrives*, not when the debounce window elapses.  After a server push
writes `a/b.md` at t = 0 and the file changes again at t = 900, the watch
event at t = 900 (whose debounce evaluation would run at t = 1200, after
the 1000 ms suppression window has expired) is discarded by the source
pipeline, which therefore sends no frame — while the evaluation-time
semantics the claim describes sends an upsert frame. -/
theorem suppression_checked_at_arrival_not_evaluation :
    (runSim [(0, .pushUp "a/b.md" "X"), (900, .localWrite "a/b.md" "Y"),
        (900, .watch "a/b.md")] 2000).sentMsgs = [] ∧
    (runSimSpec [(0, .pushUp "a/b.md" "X"), (900, .localWrite "a/b.md" "Y"),
        (900, .watch "a/b.md")] 2000).sentMsgs = [⟨.upsert, "a/b.md", some "Y"⟩] := by
  decide

/-- C1, amended: the suppression check happens when the watch event
arrives (before the debounce task is scheduled).  For every synchronized
filename: an event arriving while the entry is younger than 1000 ms is
discarded, the entry left in place, and no debounce task is scheduled;
otherwise a debounce task is (re)scheduled for 300 ms later, and when it
fires the filesystem is read — an existing file yields an upsert frame
with its content, a missing one a delete frame.  The claim's examples
hold: after a server-push upsert of `a/b.md`, a watch event 500 ms later
produces no outbound frame; an independent edit with its watch event
1500 ms later produces exactly one outbound upsert frame with the edited
content; and a watch event for a file absent at evaluation time produces
exactly one outbound delete frame. -/
theorem watcher_discards_suppressed_on_arrival (st : WState) (now : Nat) (fn : String)
    (h1 : strStartsWith fn "." = false) (h2 : strEndsWith fn ".md" = true) :
    ((isSuppressedFn st.suppressed (backslashToSlash fn) now).1 = true →
      watcherEvent st now (some fn) = st) ∧
    ((isSuppressedFn st.suppressed (backslashToSlash fn) now).1 = false →
      watcherEvent st now (some fn) =
        { st with
          suppressed := (isSuppressedFn st.suppressed (backslashToSlash fn) now).2
          timers := setA st.timers (backslashToSlash fn) (now + DEBOUNCE_DELAY) }) ∧
    (∀ (stE : WState) (p : String) (t : Nat) (c : String),
      lookupA stE.fs p = some c →
        handleLocalChange stE p t =
          { stE with sentMsgs := stE.sentMsgs ++ [⟨.upsert, p, some c⟩] }) ∧
    (∀ (stE : WState) (p : String) (t : Nat),
      lookupA stE.fs p = none →
        handleLocalChange stE p t =
          { stE with sentMsgs := stE.sentMsgs ++ [⟨.delete, p, none⟩] }) ∧
    (runSim [(0, .pushUp "a/b.md" "X"), (500, .watch "a/b.md")] 2000).sentMsgs = [] ∧
    (runSim [(0, .pushUp "a/b.md" "X"), (1500, .localWrite "a/b.md" "Y"),
        (1500, .watch "a/b.md")] 2000).sentMsgs = [⟨.upsert, "a/b.md", some "Y"⟩] ∧
    (runSim [(1500, .watch "a/b.md")] 3000).sentMsgs = [⟨.delete, "a/b.md", none⟩] := by
  refine ⟨?_, ?_, ?_, ?_, by decide, by decide, by decide⟩
  · intro h3
    simp only [watcherEvent, h1, h2, Bool.not_true, Bool.false_eq_true, if_false, h3,
      if_true]
    rw [isSuppressedFn_true_keeps_entry _ _ _ h3]
  · intro h3
    simp only [watcherEvent, h1, h2, Bool.not_true, Bool.false_eq_true, if_false, h3]
  · intro stE p t c hl
    unfold handleLocalChange
    rw [hl]
  · intro stE p t hl
    unfold handleLocalChange
    rw [hl]

/-- Witness for the amended C1 at concrete inputs: one suppressed arrival
discarded, one unsuppressed arrival scheduling a debounce task. -/
theorem watcher_discards_suppressed_on_arrival_witness :
    watcherEvent ⟨[("a/b.md", 0)], [], [], []⟩ 500 (some "a/b.md")
      = ⟨[("a/b.md", 0)], [], [], []⟩ ∧
    watcherEvent ⟨[], [], [], []⟩ 1500 (some "a/b.md")
      = ⟨[], [("a/b.md", 1800)], [], []⟩ :=
  ⟨(watcher_discards_suppressed_on_arrival ⟨[("a/b.md", 0)], [], [], []⟩ 500 "a/b.md"
      (by decide) (by decide)).1 (by decide),
    ((watcher_discards_suppressed_on_arrival ⟨[], [], [], []⟩ 1500 "a/b.md"
      (by decide) (by decide)).2.1 (by decide)).trans (by decide)⟩

/-- C6: three rapid local writes to the same path at t = 0, 50, 100 ms
produce exactly one outbound `file_sync` frame, an upsert carrying the
content on disk when the debounce window elapses 300 ms after the last
event; and the watch callback keeps at most one pending debounce task per
path (a newer event replaces the pending one). -/
theorem debounce_collapses_burst_to_one_frame :
    (runSim [(0, .localWrite "n.md" "one"), (0, .watch "n.md"),
        (50, .localWrite "n.md" "two"), (50, .watch "n.md"),
        (100, .localWrite "n.md" "three"), (100, .watch "n.md")] 1000).sentMsgs
      = [⟨.upsert, "n.md", some "three"⟩] ∧
    (∀ st now fn, (st.timers.map Prod.fst).Nodup →
      ((watcherEvent st now fn).timers.map Prod.fst).Nodup) := by
  refine ⟨by decide, ?_⟩
  intro st now fn h
  cases fn with
  | none => simpa [watcherEvent] using h
  | some f =>
    by_cases h1 : strStartsWith f "."
    · simpa [watcherEvent, h1] using h
    · by_cases h2 : strEndsWith f ".md"
      · by_cases h3 : (isSuppressedFn st.suppressed (backslashToSlash f) now).1
        · simpa [watcherEvent, h1, h2, h3] using h
        · simpa [watcherEvent, h1, h2, h3] using
            keys_nodup_setA st.timers (backslashToSlash f) (now + DEBOUNCE_DELAY) h
      · simpa [watcherEvent, h1, h2] using h

/-- Witness for C6 at a concrete input. -/
theorem debounce_collapses_burst_to_one_frame_witness :
    ((watcherEvent ⟨[], [("n.md", 300)], [], []⟩ 50 (some "n.md")).timers.map Prod.fst).Nodup :=
  debounce_collapses_burst_to_one_frame.2 ⟨[], [("n.md", 300)], [], []⟩ 50 (some "n.md")
    (by decide)

/-- Witness for C10 at a concrete input. -/
theorem sendRequest_not_connected_rejects_witness :
    sendRequest ⟨some .CLOSED, none, false, 3, [], [], [], []⟩ "thread_list_request" [] 7 10000 =
      { ws := some .CLOSED, reconnectTimer := none, connected := false, requestCounter := 3,
        pending := [], sent := [], outcomes := [.rejected "Not connected"], log := [] } :=
  sendRequest_not_connected_rejects ⟨some .CLOSED, none, false, 3, [], [], [], []⟩
    "thread_list_request" [] 7 10000 (by simp)

end ClawControl
